import Mathlib

/-
Verification development for the LearnUs service (session token helpers,
SSO login client, activity cache, and deadline aggregation).

Shallow embedding conventions:
- Python datetimes and epoch seconds are modelled as Int timestamps.
- A signed JWT is modelled as its decoded payload paired with the key it
  was signed with; decoding with a key checks that the keys agree, which
  is the observable behaviour of HMAC sign/verify at this level.
- HTML responses are modelled as records exposing exactly the values the
  extraction helpers can find on them (named hidden inputs, the two
  script-embedded RSA variables, the auth form).
-/

namespace LearnUs

/-! ## Session token service (session_utils module) -/

/-- Decoded JWT payload, mirroring the dict built in issue_token:
sub, pwd, guest, iat, exp. -/
structure Payload where
  sub : String
  pwd : String
  guest : Bool
  iat : Int
  exp : Int
deriving Repr, DecidableEq

/-- A signed token: payload plus the signing key that produced the
signature.  Key comparison at decode time models signature verification. -/
structure Jwt where
  payload : Payload
  sigKey : String
deriving Repr, DecidableEq

/-- Default token lifetime, 6 hours, from the module configuration. -/
def DEFAULT_EXP_SECS : Int := 60 * 60 * 6

/-- Embeds issue_token: builds the payload and signs it.  When guest is
true the subject is the literal "guest" and the password field is empty;
otherwise the supplied credentials are embedded verbatim. -/
def issue_token (key username password : String) (guest : Bool)
    (exp_secs now : Int) : Jwt :=
  { payload :=
      { sub := if guest then "guest" else username
      , pwd := if guest then "" else password
      , guest := guest
      , iat := now
      , exp := now + exp_secs }
  , sigKey := key }

/-- Token verification outcomes (PyJWT ExpiredSignatureError vs any
other PyJWTError, which verify_token maps to HTTP 401 responses). -/
inductive TokenError where
  | Expired
  | Invalid
deriving Repr, DecidableEq

/-- Embeds jwt.decode with signature check and expiry check.  PyJWT
rejects a token as expired when exp is less than or equal to the clock
reading at decode time. -/
def jwt_decode (tok : Jwt) (key : String) (now : Int) :
    Except TokenError Payload :=
  if tok.sigKey ≠ key then .error .Invalid
  else if tok.payload.exp ≤ now then .error .Expired
  else .ok tok.payload

/-- Embeds verify_token: decode and return the payload, or fail. -/
def verify_token (key : String) (tok : Jwt) (now : Int) :
    Except TokenError Payload :=
  jwt_decode tok key now

/-- Embeds the guest_login route body: issue_token("guest", "", guest=True)
with the default lifetime. -/
def guest_login_issue (key : String) (now : Int) : Jwt :=
  issue_token key "guest" "" true DEFAULT_EXP_SECS now

/-! ## Activity data model (dataclass Activity of the parser module) -/

/-- Extra mapping attached to an Activity.  It starts empty and is only
ever written by dict.update with the assignment-detail dict, whose four
keys are always present, so the four fields below capture its contents.
A value of none stands for the Python values None / key absent; some
false and some true stand for the booleans. -/
structure Extra where
  submitted : Option Bool := none
  submission_status : Option String := none
  grading_status : Option String := none
  due_time : Option Int := none
deriving Repr, DecidableEq

/-- Embeds the Activity dataclass.  Field kind carries the Python field
named type (modtype string such as "vod", "assign", "quiz"). -/
structure Activity where
  id : Int
  kind : String
  title : String
  completed : Bool
  open_time : Option Int := none
  due_time : Option Int := none
  late_due_time : Option Int := none
  extra : Extra := {}
deriving Repr, DecidableEq

/-- Result dict of parse_assignment_detail: four keys, each possibly
None. -/
structure AssignDetail where
  submitted : Option Bool := none
  submission_status : Option String := none
  grading_status : Option String := none
  due_time : Option Int := none
deriving Repr, DecidableEq

/-- Embeds act.extra.update(detail): every key of the detail dict is
written into the mapping. -/
def Extra.updateFromDetail (e : Extra) (d : AssignDetail) : Extra :=
  { e with
    submitted := d.submitted
  , submission_status := d.submission_status
  , grading_status := d.grading_status
  , due_time := d.due_time }

/-- Embeds the enrichment step applied to the matching activity in
get_events: act.extra.update(detail) followed by act.due_time being set
from the detail only when the detail holds a due time (a datetime is
always truthy) and act.due_time is still None. -/
def apply_detail (a : Activity) (d : AssignDetail) : Activity :=
  let a1 := { a with extra := a.extra.updateFromDetail d }
  if d.due_time.isSome && a1.due_time.isNone then
    { a1 with due_time := d.due_time }
  else a1

/-! ## Aggregation classification (the per-activity loop body of
get_events in the alimi backend) -/

/-- Which of the four output lists of get_events receive an entry for a
given activity. -/
structure Placement where
  assign : Bool
  video : Bool
  quiz : Bool
  calendar : Bool
deriving Repr, DecidableEq

/-- Embeds the classification loop body of get_events for one activity.
Each continue statement of the source skips the trailing calendar append
as well, which is why the all-false placement is produced there.  The
Python truthiness tests on due_time are isSome tests because datetime
objects are always truthy. -/
def place (now : Int) (a : Activity) : Placement :=
  if a.kind = "assign" then
    if a.completed || (a.extra.submitted == some true) then
      ⟨false, false, false, false⟩
    else
      match a.due_time with
      | none => ⟨false, false, false, false⟩
      | some d =>
        if d < now then ⟨false, false, false, false⟩
        else ⟨true, false, false, true⟩
  else if a.kind = "vod" then
    match a.due_time with
    | none => ⟨false, false, false, false⟩
    | some d =>
      if a.completed then ⟨false, false, false, false⟩
      else if d < now then ⟨false, false, false, false⟩
      else ⟨false, true, false, true⟩
  else if a.kind = "quiz" then
    if a.completed then ⟨false, false, false, false⟩
    else
      match a.due_time with
      | none => ⟨false, false, true, false⟩
      | some d =>
        if d < now then ⟨false, false, false, false⟩
        else ⟨false, false, true, true⟩
  else
    ⟨false, false, false, a.due_time.isSome⟩

/-- Calendar membership as the code actually decides it, written out as
one predicate so the characterization theorem can compare the loop with
a closed-form condition: a known due time is necessary, and each of the
three recognised kinds additionally requires its to-do filter to pass. -/
def calendar_included (now : Int) (a : Activity) : Bool :=
  match a.due_time with
  | none => false
  | some d =>
    if a.kind = "assign" then
      !a.completed && !(a.extra.submitted == some true) && !(decide (d < now))
    else if a.kind = "vod" then
      !a.completed && !(decide (d < now))
    else if a.kind = "quiz" then
      !a.completed && !(decide (d < now))
    else true

/-! ## Course resolution and fan-out pool construction (get_events) -/

/-- Course dict entry with id and name, as returned by the dashboard
course listing. -/
structure CourseRef where
  id : Int
  name : String
deriving Repr, DecidableEq

/-- Embeds the course-set resolution at the top of get_events: the single
given course, or the ids of every course in the directory listing. -/
def resolve_course_ids (course_id : Option Int) (courses : List CourseRef) :
    List Int :=
  match course_id with
  | none => courses.map (fun c => c.id)
  | some cid => [cid]

/-- Error raised by library code outside the repository. -/
inductive PyError where
  | ValueErr
deriving Repr, DecidableEq

/-- Embeds the documented constructor contract of the Python standard
library ThreadPoolExecutor: a max_workers value of zero or less raises
ValueError. -/
def thread_pool_new (max_workers : Int) : Except PyError Unit :=
  if max_workers ≤ 0 then .error .ValueErr else .ok ()

/-- Embeds the fan-out pool construction of get_events:
ThreadPoolExecutor(max_workers=min(16, len(course_ids))). -/
def get_events_fanout_pool (course_id : Option Int)
    (courses : List CourseRef) : Except PyError Unit :=
  thread_pool_new (min 16 ((resolve_course_ids course_id courses).length : Int))

/-! ## Activity cache (the COURSE CACHE dict and the cached getter shared
by both backend modules) -/

/-- In-process client object.  objId models the CPython id() of the
instance: unique per live object, unrelated to the credentials the
client logged in with. -/
structure ClientRef where
  objId : Int
  username : String
  password : String
deriving Repr, DecidableEq

/-- Embeds the cache-key expression id(client) used by the cached getter
and by logout. -/
def cache_key (c : ClientRef) : Int := c.objId

/-- Activity lists as stored in the cache. -/
abbrev Acts := List Activity

/-- Inner per-client cache: course id to (fetch time, activities). -/
abbrev InnerCache := List (Int × Int × Acts)

/-- Lookup in the inner cache dict. -/
def innerLookup : InnerCache → Int → Option (Int × Acts)
  | [], _ => none
  | (k, t, a) :: rest, key =>
    if k = key then some (t, a) else innerLookup rest key

/-- Dict assignment in the inner cache: replaces any entry for the key. -/
def innerInsert (c : InnerCache) (k t : Int) (a : Acts) : InnerCache :=
  (k, t, a) :: c.filter (fun e => e.1 ≠ k)

/-- The global COURSE CACHE dict keyed by id(client). -/
abbrev GlobalCache := List (Int × InnerCache)

/-- Lookup in the global cache dict. -/
def globalLookup : GlobalCache → Int → Option InnerCache
  | [], _ => none
  | (k, v) :: rest, key =>
    if k = key then some v else globalLookup rest key

/-- Dict assignment in the global cache: replaces any entry for the key. -/
def globalInsert (c : GlobalCache) (k : Int) (v : InnerCache) : GlobalCache :=
  (k, v) :: c.filter (fun e => e.1 ≠ k)

/-- Result of one cached-getter call: the returned activities, the cache
state afterwards, and whether a Source Adapter fetch happened. -/
structure CachedGet where
  acts : Acts
  store : GlobalCache
  fetched : Bool
deriving Repr, DecidableEq

/-- Embeds the cached getter of course activities: setdefault the inner
dict for id(client), serve the cached list when its age is strictly below
ttl, otherwise fetch through the client and store the result with the
current timestamp.  fetch is the Source Adapter, a function of the course
id and the clock reading so that successive fetches may differ. -/
def get_course_activities_cached (fetch : Int → Int → Acts)
    (store : GlobalCache) (client : ClientRef) (course_id now ttl : Int) :
    CachedGet :=
  let key := cache_key client
  let inner := (globalLookup store key).getD []
  match innerLookup inner course_id with
  | some (t0, acts) =>
    if now - t0 < ttl then
      { acts := acts, store := globalInsert store key inner, fetched := false }
    else
      let fresh := fetch course_id now
      { acts := fresh
      , store := globalInsert store key (innerInsert inner course_id now fresh)
      , fetched := true }
  | none =>
    let fresh := fetch course_id now
    { acts := fresh
    , store := globalInsert store key (innerInsert inner course_id now fresh)
    , fetched := true }

/-! ## SSO login client (LearnUsClient.login of the downloader client
module) -/

/-- An HTML response page, exposed at the granularity the extraction
helpers read it: named input tags anywhere on the page, the two
script-embedded RSA values matched by the regular expressions of
extract_js_rsa_keys, and the hidden inputs of the PmSSOAuthService form
when that form is present. -/
structure Page where
  inputs : List (String × String)
  jsSsoChallenge : Option String := none
  jsKeyModulus : Option String := none
  authForm : Option (List (String × String)) := none
deriving Repr, DecidableEq

/-- Embeds get_value_from_input: the value of the first input tag with
the given name, or None. -/
def get_value_from_input (p : Page) (name : String) : Option String :=
  (p.inputs.find? (fun kv => kv.1 == name)).map (fun kv => kv.2)

/-- Embeds get_multiple_values: all requested named inputs, or None as
soon as any one of them is missing. -/
def get_multiple_values (p : Page) (names : List String) :
    Option (List (String × String)) :=
  names.foldr
    (fun n acc =>
      match get_value_from_input p n, acc with
      | some v, some l => some ((n, v) :: l)
      | _, _ => none)
    (some [])

/-- Python truthiness of an optional string: None and the empty string
are falsy. -/
def falsyStr : Option String → Bool
  | none => true
  | some s => s == ""

/-- Typed login failures, one constructor per distinct raise site of
LearnUsLoginError inside login and its helpers, named after the error
taxonomy of the design (AuthError).  ChallengeNotFound and
ModulusNotFound are the two raises inside extract_js_rsa_keys;
ChallengeMissing is the step-3 re-raise in login that covers both. -/
inductive AuthError where
  | SeedMissing
  | ChallengeNotFound
  | ModulusNotFound
  | ChallengeMissing
  | FormMissing
  | ExchangeMissing
deriving Repr, DecidableEq

/-- Embeds extract_js_rsa_keys: the regex search for the script variable
ssoChallenge, then the regex search for the hex modulus in the
rsa.setPublic call; each missing match raises. -/
def extract_js_rsa_keys (p : Page) : Except AuthError (String × String) :=
  match p.jsSsoChallenge with
  | none => .error .ChallengeNotFound
  | some sc =>
    match p.jsKeyModulus with
    | none => .error .ModulusNotFound
    | some km => .ok (sc, km)

/-- Embeds the hidden-input parse of the unused helper named
step 1 get challenge: both ssoChallenge and keyModulus read as named
input tags, or None. -/
def step_1_challenge_inputs (p : Page) : Option (List (String × String)) :=
  get_multiple_values p ["ssoChallenge", "keyModulus"]

/-- The three responses the remote side produces for the extraction
points of login.  The page visits and posts that nothing is extracted
from are not represented; transport failures are out of scope here. -/
structure Remote where
  spLogin2 : Page
  pmSSOService : Page
  pmSSOAuthService : Page
deriving Repr, DecidableEq

/-- Client object state: the stored requests session, None until a login
run has completed every step. -/
structure Client where
  session : Option Nat := none
deriving Repr, DecidableEq

/-- Embeds LearnUsClient.login, keeping its extraction control flow:
S1 from spLogin2 (falsy value raises), script-embedded RSA values from
the PmSSOService response (any extraction failure is re-raised as the
step-3 error), the PmSSOAuthService form on the same page, the four
exchange values E3/E4/S2/CLTID from the PmSSOAuthService response, and
only then the session is stored on the client.  The credential arguments
only feed request bodies and the RSA ciphertext, none of which alters
the control flow, so they are unused binders here. -/
def login (c : Client) (r : Remote) (_username _password : String) :
    Client × Except AuthError Unit :=
  if falsyStr (get_value_from_input r.spLogin2 "S1") then
    (c, .error .SeedMissing)
  else
    match extract_js_rsa_keys r.pmSSOService with
    | .error _ => (c, .error .ChallengeMissing)
    | .ok _ =>
      match r.pmSSOService.authForm with
      | none => (c, .error .FormMissing)
      | some _ =>
        match get_multiple_values r.pmSSOAuthService
            ["E3", "E4", "S2", "CLTID"] with
        | none => (c, .error .ExchangeMissing)
        | some _ => ({ session := some 1 }, .ok ())

/-! ## Theorems about the session token service -/

/-- C1: for every identity and secret, issuing a non-guest token and then
verifying it (at any clock reading before expiry) succeeds and recovers
the identity and secret unchanged, and the payload expiry equals the
issue time plus the ttl; the default ttl is 6 hours (21600 seconds). -/
theorem c1_issue_verify_roundtrip (key u p : String) (ttl ti tv : Int)
    (h : tv < ti + ttl) :
    verify_token key (issue_token key u p false ttl ti) tv =
      .ok { sub := u, pwd := p, guest := false, iat := ti, exp := ti + ttl }
    ∧ DEFAULT_EXP_SECS = 21600 := by
  refine ⟨?_, rfl⟩
  simp only [verify_token, jwt_decode, issue_token, ne_eq]
  rw [if_neg (by simp), if_neg (by simp only [not_le]; exact h)]
  simp

/-- Witness for C1 at a concrete key, identity, secret and clock. -/
theorem c1_witness :
    verify_token "k" (issue_token "k" "alice" "pw" false 21600 0) 100 =
      .ok { sub := "alice", pwd := "pw", guest := false, iat := 0
          , exp := 0 + 21600 }
    ∧ DEFAULT_EXP_SECS = 21600 :=
  c1_issue_verify_roundtrip "k" "alice" "pw" 21600 0 100 (by decide)

/-- C4 counterexample: issuing a non-guest token with an empty secret
gives a payload whose secret field is empty while its guest flag is
false, so the biconditional of the claim fails at this input. -/
theorem c4_counterexample :
    (issue_token "k" "bob" "" false 21600 0).payload.pwd = "" ∧
    (issue_token "k" "bob" "" false 21600 0).payload.guest = false :=
  ⟨rfl, rfl⟩

/-- C4 amended: for every token produced by issue, whatever secret was
supplied, the payload secret is empty whenever the guest flag is true;
and provided the supplied secret is nonempty, the payload secret is
empty if and only if the guest flag is true. -/
theorem c4_secret_empty_iff_guest (key u p : String) (g : Bool) (e t : Int) :
    (g = true → (issue_token key u p g e t).payload.pwd = "")
    ∧ (p ≠ "" →
      ((issue_token key u p g e t).payload.pwd = "" ↔
       (issue_token key u p g e t).payload.guest = true)) := by
  constructor
  · intro hg
    subst hg
    rfl
  · intro hp
    cases g <;> simp [issue_token, hp]

/-- Witness for the amended C4: the first conjunct at the exact input
the guest-login route uses (guest token with an empty supplied secret),
the second conjunct at a guest token with a nonempty supplied secret. -/
theorem c4_witness :
    (issue_token "k" "guest" "" true 21600 0).payload.pwd = ""
    ∧ ((issue_token "k" "u" "pw" true 21600 0).payload.pwd = "" ↔
       (issue_token "k" "u" "pw" true 21600 0).payload.guest = true) :=
  ⟨(c4_secret_empty_iff_guest "k" "guest" "" true 21600 0).1 rfl,
   (c4_secret_empty_iff_guest "k" "u" "pw" true 21600 0).2 (by decide)⟩

/-- C9: every guest token, whatever identity and secret arguments were
supplied, verifies (before expiry) to a payload with empty secret and
guest set, and the guest-login route issues exactly such a token. -/
theorem c9_guest_token_verifies (key u p : String) (e ti tv : Int)
    (h : tv < ti + e) :
    verify_token key (issue_token key u p true e ti) tv =
      .ok { sub := "guest", pwd := "", guest := true, iat := ti
          , exp := ti + e }
    ∧ guest_login_issue key ti =
      issue_token key "guest" "" true DEFAULT_EXP_SECS ti := by
  refine ⟨?_, rfl⟩
  simp only [verify_token, jwt_decode, issue_token, ne_eq]
  rw [if_neg (by simp), if_neg (by simp only [not_le]; exact h)]
  simp

/-- Witness for C9 at a concrete key, discarded credentials and clock. -/
theorem c9_witness :
    verify_token "k" (issue_token "k" "ignored" "alsoignored" true 21600 5) 6 =
      .ok { sub := "guest", pwd := "", guest := true, iat := 5
          , exp := 5 + 21600 }
    ∧ guest_login_issue "k" 5 =
      issue_token "k" "guest" "" true DEFAULT_EXP_SECS 5 :=
  c9_guest_token_verifies "k" "ignored" "alsoignored" 21600 5 6 (by decide)

/-! ## Theorems about aggregation and enrichment -/

/-- C8: detail enrichment merges the recovered due time into the record
only when the record due time is None (a set due time is never
overwritten), and every field other than due time and the extra mapping
is unchanged; the extra mapping becomes the detail dict contents. -/
theorem c8_enrichment_frame (a : Activity) (d : AssignDetail) :
    (apply_detail a d).due_time =
      (if a.due_time.isSome then a.due_time else d.due_time)
    ∧ (apply_detail a d).id = a.id
    ∧ (apply_detail a d).kind = a.kind
    ∧ (apply_detail a d).title = a.title
    ∧ (apply_detail a d).completed = a.completed
    ∧ (apply_detail a d).open_time = a.open_time
    ∧ (apply_detail a d).late_due_time = a.late_due_time
    ∧ (apply_detail a d).extra = a.extra.updateFromDetail d := by
  unfold apply_detail
  cases ha : a.due_time <;> cases hd : d.due_time <;> simp [ha, hd]

/-- C10: with no course id given and an empty course directory listing,
the fan-out pool of get_events is constructed with width min(16, 0) = 0,
which the executor constructor rejects, so the aggregation call fails
instead of returning an empty result. -/
theorem c10_empty_course_set_fails :
    get_events_fanout_pool none [] = .error .ValueErr := by
  simp [get_events_fanout_pool, resolve_course_ids, thread_pool_new]

/-- C2 counterexample: a completed video activity with a known due time
is skipped by the continue statement of its branch before the calendar
append is reached, so completion does exclude it from the calendar. -/
theorem c2_counterexample :
    (Activity.mk 1 "vod" "lecture" true none (some 100) none {}).due_time =
      some 100
    ∧ (Activity.mk 1 "vod" "lecture" true none (some 100) none
        {}).completed = true
    ∧ (place 0 (Activity.mk 1 "vod" "lecture" true none (some 100) none
        {})).calendar = false := by
  decide

/-- C2 amended: an activity reaches the calendar list precisely when it
has a known due time and additionally survives its kind-specific to-do
filter: assignments must be neither completed nor submitted and not past
due, videos must be neither completed nor past due, quizzes must be
neither completed nor past due; activities of unrecognised kinds appear
whenever the due time is known. -/
theorem c2_calendar_characterization (now : Int) (a : Activity) :
    (place now a).calendar = calendar_included now a := by
  rcases hd : a.due_time with _ | d <;>
    simp only [place, calendar_included, hd] <;>
    by_cases h1 : a.kind = "assign" <;>
    by_cases h2 : a.kind = "vod" <;>
    by_cases h3 : a.kind = "quiz" <;>
    by_cases hc : a.completed = true <;>
    by_cases hs : (a.extra.submitted == some true) = true <;>
    simp_all <;>
    try (by_cases hlt : d < now
         · simp_all [hlt]
         · simp_all [if_neg hlt, decide_eq_false hlt])

/-! ## Theorems about the activity cache -/

/-- C7: for a client and course not yet cached, the first call fetches;
a second call within the ttl window serves the cached list without
fetching; a call after the ttl has elapsed fetches again and stores the
fresh result under the current timestamp. -/
theorem c7_cache_ttl (fetch : Int → Int → Acts) (store : GlobalCache)
    (client : ClientRef) (cid t0 t1 t2 ttl : Int)
    (h0 : globalLookup store (cache_key client) = none)
    (h1 : t1 - t0 < ttl) (h2 : ttl ≤ t2 - t0) :
    (get_course_activities_cached fetch store client cid t0 ttl).fetched
      = true
    ∧ (get_course_activities_cached fetch store client cid t0 ttl).acts
      = fetch cid t0
    ∧ (get_course_activities_cached fetch
        (get_course_activities_cached fetch store client cid t0 ttl).store
        client cid t1 ttl).fetched = false
    ∧ (get_course_activities_cached fetch
        (get_course_activities_cached fetch store client cid t0 ttl).store
        client cid t1 ttl).acts = fetch cid t0
    ∧ (get_course_activities_cached fetch
        (get_course_activities_cached fetch store client cid t0 ttl).store
        client cid t2 ttl).fetched = true
    ∧ innerLookup ((globalLookup
        (get_course_activities_cached fetch
          (get_course_activities_cached fetch store client cid t0 ttl).store
          client cid t2 ttl).store (cache_key client)).getD []) cid
      = some (t2, fetch cid t2) := by
  have hr0 : get_course_activities_cached fetch store client cid t0 ttl =
      { acts := fetch cid t0
      , store := globalInsert store (cache_key client)
          [(cid, t0, fetch cid t0)]
      , fetched := true } := by
    simp [get_course_activities_cached, h0, innerLookup, innerInsert]
  have hlook : globalLookup
      (globalInsert store (cache_key client) [(cid, t0, fetch cid t0)])
      (cache_key client) = some [(cid, t0, fetch cid t0)] := by
    simp [globalInsert, globalLookup]
  refine ⟨by rw [hr0], by rw [hr0], ?_, ?_, ?_, ?_⟩ <;>
    rw [hr0] <;>
    simp [get_course_activities_cached, hlook, innerLookup, innerInsert,
      globalInsert, globalLookup, if_pos h1, if_neg (not_lt.mpr h2)]

/-- Witness for C7 at a concrete adapter, client, course and clocks. -/
theorem c7_witness :
    (get_course_activities_cached (fun _ _ => []) [] ⟨1, "u", "p"⟩ 7 0 900).fetched
      = true
    ∧ (get_course_activities_cached (fun _ _ => [])
        (get_course_activities_cached (fun _ _ => []) [] ⟨1, "u", "p"⟩ 7 0 900).store
        ⟨1, "u", "p"⟩ 7 100 900).fetched = false
    ∧ (get_course_activities_cached (fun _ _ => [])
        (get_course_activities_cached (fun _ _ => []) [] ⟨1, "u", "p"⟩ 7 0 900).store
        ⟨1, "u", "p"⟩ 7 900 900).fetched = true := by
  have h := c7_cache_ttl (fun _ _ => []) [] ⟨1, "u", "p"⟩ 7 0 100 900 900
    (by rfl) (by decide) (by decide)
  exact ⟨h.1, h.2.2.1, h.2.2.2.2.1⟩

/-- C3 counterexample: two client objects carrying the same credentials
but distinct object identities receive distinct cache keys, so the cache
key is not a stable identifier of the logical session. -/
theorem c3_counterexample :
    ({ objId := 1, username := "u", password := "p" } : ClientRef).username
      = ({ objId := 2, username := "u", password := "p" } : ClientRef).username
    ∧ ({ objId := 1, username := "u", password := "p" } : ClientRef).password
      = ({ objId := 2, username := "u", password := "p" } : ClientRef).password
    ∧ cache_key { objId := 1, username := "u", password := "p" }
      ≠ cache_key { objId := 2, username := "u", password := "p" } := by
  refine ⟨rfl, rfl, by decide⟩

/-- C3 amended: the activity cache is keyed by the transient object
identity of the client (the CPython id), so two client objects that
embody the same logical session (identical credentials) use disjoint
cache entries: after the first client has populated the cache, a call
through the second client still fetches even within the ttl window. -/
theorem c3_object_identity_key (fetch : Int → Int → Acts)
    (cl1 cl2 : ClientRef) (cid t0 t1 ttl : Int)
    (hu : cl1.username = cl2.username) (hp : cl1.password = cl2.password)
    (hid : cl1.objId ≠ cl2.objId) (h1 : t1 - t0 < ttl) :
    (get_course_activities_cached fetch
      (get_course_activities_cached fetch [] cl1 cid t0 ttl).store
      cl2 cid t1 ttl).fetched = true := by
  simp [get_course_activities_cached, globalLookup, globalInsert,
    innerLookup, innerInsert, cache_key, hid]

/-- Witness for the amended C3 at two concrete clients sharing
credentials. -/
theorem c3_witness :
    (get_course_activities_cached (fun _ _ => [])
      (get_course_activities_cached (fun _ _ => []) [] ⟨1, "u", "p"⟩ 7 0 900).store
      ⟨2, "u", "p"⟩ 7 100 900).fetched = true :=
  c3_object_identity_key (fun _ _ => []) ⟨1, "u", "p"⟩ ⟨2, "u", "p"⟩ 7 0 100 900
    rfl rfl (by decide) (by decide)

/-! ## Theorems about the SSO login client -/

/-- C5 counterexample: a step-3 response carrying the challenge and
modulus solely as hidden form fields is readable by the hidden-input
parse of the unused step-1 helper, yet login fails on it with the
step-3 error, because login only attempts the script-embedded parse and
has no second branch. -/
theorem c5_counterexample :
    step_1_challenge_inputs
        (Page.mk [("ssoChallenge", "1234"), ("keyModulus", "beef")]
          none none (some []))
      = some [("ssoChallenge", "1234"), ("keyModulus", "beef")]
    ∧ (login { session := none }
        (Remote.mk (Page.mk [("S1", "s1")] none none none)
          (Page.mk [("ssoChallenge", "1234"), ("keyModulus", "beef")]
            none none (some []))
          (Page.mk [] none none none))
        "user" "pw").2 = .error .ChallengeMissing := by
  constructor
  · rfl
  · rfl

/-- C5 amended: login parses only the script-embedded encoding of the
challenge and modulus; the hidden-field encoding is handled only by the
unused step-1 helper, so whenever the script variables are absent login
fails with the step-3 error even if both values are present as hidden
form fields, and the client state is unchanged. -/
theorem c5_script_encoding_only (c : Client) (r : Remote) (u p : String)
    (vs : List (String × String))
    (hs1 : falsyStr (get_value_from_input r.spLogin2 "S1") = false)
    (hhidden : step_1_challenge_inputs r.pmSSOService = some vs)
    (hjs : r.pmSSOService.jsSsoChallenge = none) :
    login c r u p = (c, .error .ChallengeMissing) := by
  simp [login, hs1, extract_js_rsa_keys, hjs]

/-- Witness for the amended C5 at a concrete remote whose step-3
response uses the hidden-field encoding only. -/
theorem c5_witness :
    login { session := none }
        (Remote.mk (Page.mk [("S1", "s1")] none none none)
          (Page.mk [("ssoChallenge", "9999"), ("keyModulus", "c0ffee")]
            none none (some []))
          (Page.mk [] none none none))
        "user" "pw"
      = ({ session := none }, .error .ChallengeMissing) :=
  c5_script_encoding_only { session := none }
    (Remote.mk (Page.mk [("S1", "s1")] none none none)
      (Page.mk [("ssoChallenge", "9999"), ("keyModulus", "c0ffee")]
        none none (some []))
      (Page.mk [] none none none))
    "user" "pw" [("ssoChallenge", "9999"), ("keyModulus", "c0ffee")]
    rfl rfl rfl

/-- C6: when the step-3 response omits the script challenge or the
script modulus, login fails with the step-identifying challenge error
and the client is returned exactly as it was, so no session is
produced. -/
theorem c6_challenge_missing_no_session (c : Client) (r : Remote)
    (u p : String)
    (hs1 : falsyStr (get_value_from_input r.spLogin2 "S1") = false)
    (hmiss : r.pmSSOService.jsSsoChallenge = none
      ∨ r.pmSSOService.jsKeyModulus = none) :
    login c r u p = (c, .error .ChallengeMissing) := by
  rcases hmiss with h | h
  · simp [login, hs1, extract_js_rsa_keys, h]
  · rcases hc : r.pmSSOService.jsSsoChallenge with _ | sc
    · simp [login, hs1, extract_js_rsa_keys, hc]
    · simp [login, hs1, extract_js_rsa_keys, hc, h]

/-- Witness for C6 at a concrete remote omitting the challenge at
step 3, starting from a client with no session. -/
theorem c6_witness :
    login { session := none }
        (Remote.mk (Page.mk [("S1", "seed")] none none none)
          (Page.mk [] none (some "beef") (some []))
          (Page.mk [("E3", "a"), ("E4", "b"), ("S2", "c"), ("CLTID", "d")]
            none none none))
        "user" "pw"
      = ({ session := none }, .error .ChallengeMissing) :=
  c6_challenge_missing_no_session { session := none }
    (Remote.mk (Page.mk [("S1", "seed")] none none none)
      (Page.mk [] none (some "beef") (some []))
      (Page.mk [("E3", "a"), ("E4", "b"), ("S2", "c"), ("CLTID", "d")]
        none none none))
    "user" "pw" rfl (Or.inl rfl)

end LearnUs
